import Mathlib

/-
Verification development for the jupiter-mcp-server repository.

The repository orchestrates a token-swap pipeline: fetch a quote from the
Jupiter remote service, build (and remotely simulate) an unsigned
transaction, sign it with a locally held keypair, submit it to the Solana
network and confirm it.  The effectful TypeScript code is embedded
shallowly: every operation becomes a pure Lean function from its inputs
plus an oracle describing the responses of the external collaborators
(remote quoting service, swap builder, RPC node) to a result together
with the ordered trace of observable steps (network calls and local
signing) it performed.
-/

namespace JupiterMcp

/-! ## JavaScript primitive semantics -/

/-- Decimal digit test used by the `parseInt` model. -/
def isDecDigit (c : Char) : Bool :=
  '0' ≤ c && c ≤ '9'

/-- ASCII whitespace skipped by JavaScript `parseInt` before parsing. -/
def isJsSpace (c : Char) : Bool :=
  c = ' ' || c = '\t' || c = '\n' || c = '\r'

/-- Numeric value of the longest leading run of decimal digits. -/
def decDigitsVal (ds : List Char) : Nat :=
  ds.foldl (fun a c => a * 10 + (c.toNat - '0'.toNat)) 0

/-- Model of JavaScript `parseInt(s, 10)`: skip leading whitespace, read an
optional sign, then the longest leading run of decimal digits; `none`
models the `NaN` result produced when no digit is found.  Trailing
garbage after the digits is ignored, exactly as in JavaScript. -/
def parseIntJS (s : String) : Option Int :=
  let cs := s.data.dropWhile isJsSpace
  let signed : Bool × List Char :=
    match cs with
    | '-' :: r => (true, r)
    | '+' :: r => (false, r)
    | _ => (false, cs)
  let ds := signed.2.takeWhile isDecDigit
  if ds.isEmpty then none
  else
    let n : Int := (decDigitsVal ds : Nat)
    some (if signed.1 then -n else n)

/-- Model of the JavaScript expression `x || d` on an optional number `x`:
`undefined` and the falsy number `0` are both replaced by the default. -/
def jsOrInt (x : Option Int) (d : Int) : Int :=
  match x with
  | none => d
  | some n => if n = 0 then d else n

/-! ## Base-58 public keys

`new PublicKey(s)` (used by `validatePublicKey` in `handlers/utils.ts`)
base-58-decodes the string and requires the decoded byte length to be
exactly 32; any character outside the bs58 alphabet makes the decode
throw.  The decode of a digit string is: one zero byte per leading `1`
character, followed by the big-endian bytes of the value of the string
read in base 58. -/

/-- The bs58 alphabet (no `0`, `O`, `I`, `l`). -/
def base58Alphabet : List Char :=
  "123456789ABCDEFGHJKLMNPQRSTUVWXYZabcdefghijkmnopqrstuvwxyz".data

/-- Index of a character in a list, used to read a base-58 digit. -/
def charIndex : List Char → Nat → Char → Option Nat
  | [], _, _ => none
  | a :: as, i, c => if a = c then some i else charIndex as (i + 1) c

/-- Value of one base-58 digit character, `none` outside the alphabet. -/
def b58Digit (c : Char) : Option Nat :=
  charIndex base58Alphabet 0 c

/-- Value of a base-58 digit string, `none` if any character is not in
the alphabet. -/
def b58Value (cs : List Char) : Option Nat :=
  cs.foldl (fun acc c => acc.bind fun v => (b58Digit c).map fun d => v * 58 + d)
    (some 0)

/-- Byte length of the big-endian representation of `n` (0 for 0),
computed with explicit fuel so that it is structurally recursive. -/
def byteLenAux : Nat → Nat → Nat
  | 0, _ => 0
  | f + 1, n => if n = 0 then 0 else byteLenAux f (n / 256) + 1

/-- Length in bytes of the bs58 decode of `s`, `none` when the decode
throws: one byte per leading `1` plus the bytes of the base-58 value.
The string length is enough fuel since the value is below `58 ^ length`. -/
def b58DecodedLen (s : String) : Option Nat :=
  (b58Value s.data).map fun v =>
    (s.data.takeWhile fun c => c = '1').length + byteLenAux s.data.length v

/-- Model of `validatePublicKey` succeeding (`new PublicKey(s)` does not
throw): the string is valid base 58 and decodes to exactly 32 bytes. -/
def validPublicKey (s : String) : Bool :=
  b58DecodedLen s = some 32

/-! ## Data model

Shapes of the values exchanged with the remote service, from
`handlers/jupiter.types.ts`, `handlers/v1Api.types.ts` and the interfaces
in `services/v1Api.ts`.  `Option` models optional / nullable fields. -/

/-- Quote response from the Jupiter API (`QuoteResponse`).  The opaque
`routePlan` array is kept only as its length, the single thing the code
reads from it. -/
structure QuoteResponse where
  inputMint : String
  outputMint : String
  outAmount : String
  inAmount : Option String := none
  priceImpactPct : Option String := none
  routePlanLen : Option Nat := none
  contextSlot : Option Nat := none
deriving DecidableEq, Repr

/-- Response of the swap-build endpoint (`SwapResponse` /
`ExecuteResponse`): a base-64 unsigned transaction plus an optional
`simulationError` (`string | null` in the source). -/
structure ExecuteResponse where
  swapTransaction : String
  lastValidBlockHeight : Option Nat := none
  simulationError : Option String
deriving DecidableEq, Repr

/-- JavaScript truthiness of a `string | null` value: `null` and the
empty string are falsy. -/
def jsTruthyStr : Option String → Bool
  | none => false
  | some s => s ≠ ""

/-- Result record of a completed swap (`SwapResult`). -/
structure SwapResultRecord where
  signature : String
  confirmationStatus : String
  outAmount : Option String := none
  priceImpact : Option String := none
deriving DecidableEq, Repr

/-- Input of the quote operations (`QuoteInput` / `GetV1QuoteInput`). -/
structure QuoteInput where
  inputMint : String
  outputMint : String
  amount : String
  slippageBps : Option Int := none
  onlyDirectRoutes : Option Bool := none
deriving DecidableEq, Repr

/-- Input of the swap-executing operations (`SwapInput` /
`ExecuteV1SwapInput`): the quote input plus the dynamic-estimation
flags. -/
structure SwapInput extends QuoteInput where
  dynamicComputeUnits : Option Bool := none
  dynamicSlippage : Option Bool := none
deriving DecidableEq, Repr

/-- Input of the v6 `getQuoteHandler` (`GetQuoteInput` in
`handlers/jupiter.types.ts`). -/
structure GetQuoteInput where
  inputMint : String
  outputMint : String
  amount : String
  slippageBps : Option Int := none
  onlyDirectRoutes : Option Bool := none
  asLegacyTransaction : Option Bool := none
  maxAccounts : Option Nat := none
  swapMode : Option String := none
  excludeDexes : Option (List String) := none
  platformFeeBps : Option Int := none
deriving DecidableEq, Repr

/-- MCP tool result (`ToolResultSchema`), reduced to its text and error
flag. -/
structure ToolResult where
  text : String
  isError : Bool
deriving DecidableEq, Repr

/-- Model of `createErrorResponse` in `handlers/utils.ts`. -/
def createErrorResponse (m : String) : ToolResult := ⟨m, true⟩

/-- Model of `createSuccessResponse` in `handlers/utils.ts`. -/
def createSuccessResponse (m : String) : ToolResult := ⟨m, false⟩

/-! ## Observable steps and the external-world oracle -/

/-- One observable step of a run: the network calls of the pipeline,
with the data the source puts into each request, plus the purely local
signing step. -/
inductive Step where
  /-- GET of the quote endpoint with the given query parameters. -/
  | netQuote (params : List (String × String))
  /-- POST of the swap-build endpoint (body: quote, user public key and
  the dynamic-estimation flags). -/
  | netSwap (userPublicKey : String) (dynamicComputeUnitLimit dynamicSlippage : Bool)
  /-- Local signing of the transaction; not a network call. -/
  | sign
  /-- `sendRawTransaction` with the send options used by the source. -/
  | netSubmit (skipPreflight : Bool) (maxRetries : Nat)
  /-- `confirmTransaction` at the given commitment level. -/
  | netConfirm (commitment : String)
deriving DecidableEq, Repr

/-- Whether a step is a network call (everything except local signing). -/
def Step.isNetworkCall : Step → Bool
  | .sign => false
  | _ => true

/-- Whether a step is the local signing step. -/
def Step.isSignStep : Step → Bool
  | .sign => true
  | _ => false

/-- Whether a step is the broadcast of the signed transaction. -/
def Step.isSubmitStep : Step → Bool
  | .netSubmit _ _ => true
  | _ => false

/-- The query-parameter lists of the quote requests in a trace. -/
def quoteCalls (steps : List Step) : List (List (String × String)) :=
  steps.filterMap fun s =>
    match s with
    | .netQuote ps => some ps
    | _ => none

/-- Outcome of `connection.confirmTransaction`: either the call throws
(the web3.js client raises a timeout error once its budget is exceeded,
which the source propagates unchanged), or it resolves with the
network-reported execution error of the transaction (`null` when the
transaction succeeded). -/
inductive ConfirmOutcome where
  | timeout (msg : String)
  | result (err : Option String)
deriving DecidableEq, Repr

/-- Responses of the external collaborators for one pipeline run: the
quote fetch, the swap-build fetch, the broadcast and the confirmation.
`Except.error` models a thrown network / HTTP error. -/
structure PipelineOracle where
  quoteResult : Except String QuoteResponse
  swapResult : Except String ExecuteResponse
  submitResult : Except String String
  confirmOutcome : ConfirmOutcome
deriving Repr

/-! ## Key custodian (`services/wallet.ts`) -/

/-- A decoded keypair: the secret bytes and the derived public key
string. -/
structure Keypair where
  secretKey : List Nat
  publicKeyString : String
deriving DecidableEq, Repr

/-- The two private fields of `WalletService`; the connection handle is
opaque. -/
structure WalletState where
  keypair : Option Keypair := none
  connection : Option Unit := none
deriving DecidableEq, Repr

/-- Model of the `isInitialized` getter: both fields present. -/
def WalletState.isInitialized (w : WalletState) : Bool :=
  w.keypair.isSome && w.connection.isSome

/-- Model of `WalletService.initialize`.  `decodeResult` is the outcome
of `Keypair.fromSecretKey(bs58.decode(privateKey))` and
`connectionResult` the outcome of `new Connection(rpcEndpoint)`, both of
which may throw (modelled by `none`); the `try/catch` in the source then
returns `false`.  Field assignments happen in source order: the keypair
is stored before the connection is opened, so a connection failure
leaves the keypair assigned. -/
def walletInitialize (privateKey : String) (decodeResult : Option Keypair)
    (connectionResult : Option Unit) (w : WalletState) : Bool × WalletState :=
  if privateKey = "" then (false, w)
  else
    match decodeResult with
    | none => (false, w)
    | some kp =>
      let w1 := { w with keypair := some kp }
      match connectionResult with
      | none => (false, w1)
      | some c => (true, { w1 with connection := some c })

/-- Serialization of a signed versioned transaction: the signature
attached in front of the message bytes (modelled from the spec:
"binary payload with signature(s) attached"; the exact wire layout
lives in web3.js, outside this repository). -/
def serializeSigned (sig : List Nat) (message : List Nat) : List Nat :=
  sig ++ message

/-- Model of `WalletService.signTransaction` on a versioned transaction.
`ed25519Sign` is the signature primitive (secret key and message bytes
to signature bytes) provided by web3.js; it is purely local, so the
trace carries only the signing step and no network call.  The source
throws `Wallet not initialized` when the keypair field is absent — it
does not consult the connection field. -/
def signTransaction (ed25519Sign : List Nat → List Nat → List Nat)
    (w : WalletState) (txMessage : List Nat) :
    Except String (List Nat) × List Step :=
  match w.keypair with
  | none => (.error "Wallet not initialized", [])
  | some kp =>
    (.ok (serializeSigned (ed25519Sign kp.secretKey txMessage) txMessage), [Step.sign])

/-! ## Quote providers -/

/-- Render a Bool the way JavaScript `toString` does. -/
def boolStr (b : Bool) : String :=
  if b then "true" else "false"

/-- Optional query parameter: present only when the value is. -/
def optParam (k : String) : Option String → List (String × String)
  | none => []
  | some v => [(k, v)]

/-- Query parameters built by `JupiterService.getQuote`
(`services/jupiter.ts` lines 44-62): `slippageBps` defaults to `"50"`
when undefined; when `onlyDirectRoutes` is not exactly `true` the
request instead carries `restrictIntermediateTokens=true`. -/
def jupQuoteParams (inputMint outputMint amount : String)
    (slippageBps : Option Int) (onlyDirectRoutes : Option Bool) :
    List (String × String) :=
  [("inputMint", inputMint), ("outputMint", outputMint), ("amount", amount)]
    ++ (match slippageBps with
        | some s => [("slippageBps", toString s)]
        | none => [("slippageBps", "50")])
    ++ (if onlyDirectRoutes = some true then [("onlyDirectRoutes", "true")]
        else [("restrictIntermediateTokens", "true")])

/-- Model of `JupiterService.getQuote`: one outbound quote fetch whose
result the oracle supplies. -/
def jupGetQuote (o : PipelineOracle) (p : QuoteInput) :
    Except String QuoteResponse × List Step :=
  let ps := jupQuoteParams p.inputMint p.outputMint p.amount p.slippageBps p.onlyDirectRoutes
  (o.quoteResult, [.netQuote ps])

/-- Query parameters built by `V1ApiClient.getQuote` (`services/v1Api.ts`):
`slippageBps` is always appended, and `restrictIntermediateTokens` is
`"false"` exactly when the field is strictly equal to `false`, else
`"true"`.  No `onlyDirectRoutes` parameter is ever sent. -/
def v1QuoteParams (inputMint outputMint amount : String) (slippageBps : Int)
    (restrictIntermediateTokens : Option Bool) : List (String × String) :=
  [("inputMint", inputMint), ("outputMint", outputMint), ("amount", amount),
   ("slippageBps", toString slippageBps),
   ("restrictIntermediateTokens",
     if restrictIntermediateTokens = some false then "false" else "true")]

/-- Model of `V1ApiClient.getQuote`. -/
def v1GetQuote (o : PipelineOracle) (inputMint outputMint amount : String)
    (slippageBps : Int) (restrictIntermediateTokens : Option Bool) :
    Except String QuoteResponse × List Step :=
  let ps := v1QuoteParams inputMint outputMint amount slippageBps restrictIntermediateTokens
  (o.quoteResult, [.netQuote ps])

/-! ## Swap errors -/

/-- The distinct failure outcomes of the swap pipelines, one constructor
per throw site of the source (each throw site uses a distinct message
prefix, so the constructors are observably distinct to the caller). -/
inductive SwapError where
  /-- `Wallet not initialized. Cannot execute swap.` thrown at the top of
  both `completeSwap` variants. -/
  | walletNotInitialized
  /-- `Invalid amount. Please provide a valid number.` thrown when
  `parseInt` yields `NaN`. -/
  | invalidAmount
  /-- Error thrown by the quote fetch (HTTP or transport), propagated. -/
  | quoteUnavailable (msg : String)
  /-- Error thrown by the swap-build fetch, propagated. -/
  | buildFailed (msg : String)
  /-- `Simulation error: ...` thrown when the build response carries a
  simulation error. -/
  | simulationFailed (err : String)
  /-- Error thrown by `sendRawTransaction`, propagated. -/
  | submitFailed (msg : String)
  /-- Error thrown by `confirmTransaction` when its timeout budget is
  exceeded, propagated unchanged by the source. -/
  | confirmationTimeout (msg : String)
  /-- `Transaction failed: ...` thrown when the confirmation resolves
  with a network-reported execution error. -/
  | transactionFailed (err : String)
  /-- `Wallet not initialized` thrown by the `publicKey` getter. -/
  | publicKeyGetterFailed
deriving DecidableEq, Repr

/-- The message of each error as thrown by the source. -/
def SwapError.message : SwapError → String
  | .walletNotInitialized => "Wallet not initialized. Cannot execute swap."
  | .invalidAmount => "Invalid amount. Please provide a valid number."
  | .quoteUnavailable m => m
  | .buildFailed m => m
  | .simulationFailed e => "Simulation error: " ++ e
  | .submitFailed m => m
  | .confirmationTimeout m => m
  | .transactionFailed e => "Transaction failed: " ++ e
  | .publicKeyGetterFailed => "Wallet not initialized"

/-! ## The two complete-swap pipelines -/

/-- Model of `V1ApiClient.completeSwap` (`services/v1Api.ts`).  Optional
arguments model the TypeScript default parameters (`slippageBps = 50`,
`onlyDirectRoutes = false`, both dynamic flags `true`), which apply when
the caller passes `undefined`.  The pipeline: wallet guard, quote fetch
(with `restrictIntermediateTokens: !onlyDirectRoutes`), swap-build
fetch, abort on non-null `simulationError`, local sign, broadcast with
`skipPreflight: true, maxRetries: 2`, confirmation at `processed`. -/
def v1CompleteSwap (wallet : WalletState) (o : PipelineOracle)
    (inputMint outputMint amount : String)
    (slippageBps : Option Int) (onlyDirectRoutes : Option Bool)
    (dynamicComputeUnits : Option Bool) (dynamicSlippage : Option Bool) :
    Except SwapError SwapResultRecord × List Step :=
  let slippage := slippageBps.getD 50
  let direct := onlyDirectRoutes.getD false
  let dynCU := dynamicComputeUnits.getD true
  let dynSlip := dynamicSlippage.getD true
  if !wallet.isInitialized then (.error .walletNotInitialized, [])
  else
    let (qres, qsteps) := v1GetQuote o inputMint outputMint amount slippage (some (!direct))
    match qres with
    | .error m => (.error (.quoteUnavailable m), qsteps)
    | .ok quote =>
      match wallet.keypair with
      | none => (.error .publicKeyGetterFailed, qsteps)
      | some kp =>
        let steps1 := qsteps ++ [.netSwap kp.publicKeyString dynCU dynSlip]
        match o.swapResult with
        | .error m => (.error (.buildFailed m), steps1)
        | .ok ex =>
          match ex.simulationError with
          | some e => (.error (.simulationFailed e), steps1)
          | none =>
            let steps2 := steps1 ++ [.sign, .netSubmit true 2]
            match o.submitResult with
            | .error m => (.error (.submitFailed m), steps2)
            | .ok sig =>
              let steps3 := steps2 ++ [.netConfirm "processed"]
              match o.confirmOutcome with
              | .timeout m => (.error (.confirmationTimeout m), steps3)
              | .result (some e) => (.error (.transactionFailed e), steps3)
              | .result none =>
                (.ok ⟨sig, "confirmed", some quote.outAmount, quote.priceImpactPct⟩,
                 steps3)

/-- Model of `JupiterService.completeSwap` (`services/jupiter.ts`).
Differences from the V1 variant, all from the source: the amount is
`parseInt`-validated after the wallet guard, the slippage default is
applied with `||` (so an explicit 0 becomes 50), the dynamic flags are
`params.x !== false`, and the simulation-error guard tests JavaScript
truthiness (`if (executeResponse.simulationError)`) instead of
non-null. -/
def jupCompleteSwap (wallet : WalletState) (o : PipelineOracle) (p : SwapInput) :
    Except SwapError SwapResultRecord × List Step :=
  if !wallet.isInitialized then (.error .walletNotInitialized, [])
  else
    match parseIntJS p.amount with
    | none => (.error .invalidAmount, [])
    | some amount =>
      let slippageBps := jsOrInt p.slippageBps 50
      let (qres, qsteps) := jupGetQuote o
        ⟨p.inputMint, p.outputMint, toString amount, some slippageBps, p.onlyDirectRoutes⟩
      match qres with
      | .error m => (.error (.quoteUnavailable m), qsteps)
      | .ok quote =>
        match wallet.keypair with
        | none => (.error .publicKeyGetterFailed, qsteps)
        | some kp =>
          let dynCU := !(p.dynamicComputeUnits == some false)
          let dynSlip := !(p.dynamicSlippage == some false)
          let steps1 := qsteps ++ [.netSwap kp.publicKeyString dynCU dynSlip]
          match o.swapResult with
          | .error m => (.error (.buildFailed m), steps1)
          | .ok ex =>
            if jsTruthyStr ex.simulationError then
              (.error (.simulationFailed (ex.simulationError.getD "")), steps1)
            else
              let steps2 := steps1 ++ [.sign, .netSubmit true 2]
              match o.submitResult with
              | .error m => (.error (.submitFailed m), steps2)
              | .ok sig =>
                let steps3 := steps2 ++ [.netConfirm "processed"]
                match o.confirmOutcome with
                | .timeout m => (.error (.confirmationTimeout m), steps3)
                | .result (some e) => (.error (.transactionFailed e), steps3)
                | .result none =>
                  (.ok ⟨sig, "confirmed", some quote.outAmount, quote.priceImpactPct⟩,
                   steps3)

/-! ## Handlers (`handlers/jupiter.ts`, `handlers/v1Api.ts`) -/

/-- Query parameters built by the v6 `getQuoteHandler`
(`handlers/jupiter.ts` lines 21-53): every optional field is appended
only when defined — in particular no default is substituted for a
missing `slippageBps`. -/
def getQuoteHandlerParams (input : GetQuoteInput) : List (String × String) :=
  [("inputMint", input.inputMint), ("outputMint", input.outputMint),
   ("amount", input.amount)]
    ++ optParam "slippageBps" (input.slippageBps.map toString)
    ++ optParam "onlyDirectRoutes" (input.onlyDirectRoutes.map boolStr)
    ++ optParam "asLegacyTransaction" (input.asLegacyTransaction.map boolStr)
    ++ optParam "maxAccounts" (input.maxAccounts.map toString)
    ++ optParam "swapMode" input.swapMode
    ++ (match input.excludeDexes with
        | some ds => if 0 < ds.length then [("excludeDexes", String.intercalate "," ds)] else []
        | none => [])
    ++ optParam "platformFeeBps" (input.platformFeeBps.map toString)

/-- Model of the v6 `getQuoteHandler`: validate both mints, then one
quote fetch.  `fetchResult` is the remote response, `.ok` carrying the
response body rendered by `JSON.stringify`.  The handler consults no
wallet state and performs no amount validation. -/
def getQuoteHandler (fetchResult : Except String String) (input : GetQuoteInput) :
    ToolResult × List Step :=
  if !validPublicKey input.inputMint then
    (createErrorResponse ("Invalid public key: " ++ input.inputMint), [])
  else if !validPublicKey input.outputMint then
    (createErrorResponse ("Invalid public key: " ++ input.outputMint), [])
  else
    let ps := getQuoteHandlerParams input
    match fetchResult with
    | .error m => (createErrorResponse ("Error getting quote: " ++ m), [.netQuote ps])
    | .ok body => (createSuccessResponse ("Quote: " ++ body), [.netQuote ps])

/-- Summary text produced by `getV1QuoteHandler` on success (the
percentage renderings of the source are kept as raw numbers; no claim
depends on this text). -/
def formatV1Quote (q : QuoteResponse) (inputAmount : String) (slippageBps : Int) : String :=
  "V1 API Quote Summary: " ++ q.inputMint ++ " -> " ++ q.outputMint
    ++ " in " ++ (q.inAmount.getD inputAmount) ++ " out " ++ q.outAmount
    ++ " impact " ++ (q.priceImpactPct.getD "0")
    ++ " slippageBps " ++ toString slippageBps
    ++ " hops " ++ toString (q.routePlanLen.getD 0)

/-- Model of `getV1QuoteHandler`: validate both mints, compute
`slippageBps = input.slippageBps || 50`, `parseInt` the amount, then
call `v1ApiClient.getQuote` with
`restrictIntermediateTokens: input.onlyDirectRoutes !== true`. -/
def getV1QuoteHandler (o : PipelineOracle) (input : QuoteInput) :
    ToolResult × List Step :=
  if !validPublicKey input.inputMint then
    (createErrorResponse ("Invalid public key: " ++ input.inputMint), [])
  else if !validPublicKey input.outputMint then
    (createErrorResponse ("Invalid public key: " ++ input.outputMint), [])
  else
    let slippageBps := jsOrInt input.slippageBps 50
    match parseIntJS input.amount with
    | none => (createErrorResponse "Invalid amount. Please provide a valid number.", [])
    | some amount =>
      let (qres, qsteps) := v1GetQuote o input.inputMint input.outputMint
        (toString amount) slippageBps (some (!(input.onlyDirectRoutes == some true)))
      match qres with
      | .error m =>
        (createErrorResponse ("Error getting V1 API quote: " ++ m), qsteps)
      | .ok q =>
        (createSuccessResponse (formatV1Quote q input.amount slippageBps), qsteps)

/-- Success text of `executeV1SwapHandler`. -/
def formatV1SwapSuccess (r : SwapResultRecord) : String :=
  "Swap executed successfully using Jupiter V1 API! Transaction signature: "
    ++ r.signature ++ " Status: " ++ r.confirmationStatus
    ++ " Output amount: " ++ (r.outAmount.getD "Unknown")
    ++ " Price impact: " ++ (r.priceImpact.getD "Unknown")

/-- Model of `executeV1SwapHandler` (`handlers/v1Api.ts`): wallet guard
first, then mint validation, `slippageBps = input.slippageBps || 50`,
`parseInt` amount validation, and finally the full
`v1ApiClient.completeSwap` pipeline; a pipeline error is rendered with
the `Error executing V1 API swap: ` prefix. -/
def executeV1SwapHandler (wallet : WalletState) (o : PipelineOracle)
    (input : SwapInput) : ToolResult × List Step :=
  if !wallet.isInitialized then
    (createErrorResponse
      "Wallet not initialized. Cannot execute swap. Please check your environment variables for SOLANA_PRIVATE_KEY.",
     [])
  else if !validPublicKey input.inputMint then
    (createErrorResponse ("Invalid public key: " ++ input.inputMint), [])
  else if !validPublicKey input.outputMint then
    (createErrorResponse ("Invalid public key: " ++ input.outputMint), [])
  else
    let slippageBps := jsOrInt input.slippageBps 50
    match parseIntJS input.amount with
    | none => (createErrorResponse "Invalid amount. Please provide a valid number.", [])
    | some amount =>
      let r := v1CompleteSwap wallet o input.inputMint input.outputMint
        (toString amount) (some slippageBps) input.onlyDirectRoutes
        input.dynamicComputeUnits input.dynamicSlippage
      match r.1 with
      | .error e =>
        (createErrorResponse ("Error executing V1 API swap: " ++ e.message), r.2)
      | .ok res => (createSuccessResponse (formatV1SwapSuccess res), r.2)

/-! ## Concrete fixtures used by witnesses and counterexamples -/

/-- The system-program address: 32 leading `1` digits, decoding to 32
zero bytes — a well-formed network address. -/
def validMintA : String := "11111111111111111111111111111111"

/-- The wrapped-SOL mint, the input token of the spec scenario. -/
def validMintB : String := "So11111111111111111111111111111111111111112"

/-- A concrete quote response. -/
def sampleQuote : QuoteResponse :=
  { inputMint := validMintA, outputMint := validMintB, outAmount := "42" }

/-- A build response with no simulation error. -/
def okExec : ExecuteResponse := { swapTransaction := "AAAA", simulationError := none }

/-- An oracle on which every external call succeeds. -/
def okOracle : PipelineOracle :=
  { quoteResult := .ok sampleQuote
    swapResult := .ok okExec
    submitResult := .ok "sig123"
    confirmOutcome := .result none }

/-- A fully initialized wallet. -/
def initWallet : WalletState :=
  { keypair := some ⟨[1, 2, 3], "walletPub"⟩, connection := some () }

/-- A fully uninitialized wallet. -/
def uninitWallet : WalletState := {}

/-- A build response whose `simulationError` is present but empty — a
non-null value that is falsy in JavaScript. -/
def emptySimOracle : PipelineOracle :=
  { quoteResult := .ok sampleQuote
    swapResult := .ok { swapTransaction := "AAAA", simulationError := some "" }
    submitResult := .ok "sig123"
    confirmOutcome := .result none }

/-- Whether a trace contains neither a signing nor a broadcast step. -/
def noSignNoSubmit (steps : List Step) : Bool :=
  steps.all fun s => !s.isSignStep && !s.isSubmitStep

/-- One invocation of `WalletService.initialize`: the configured secret
and the outcomes of the two fallible sub-steps (key decode, connection
construction). -/
structure InitRun where
  privateKey : String
  decodeResult : Option Keypair
  connectionResult : Option Unit

/-- The wallet state after a sequence of initialize invocations. -/
def runInits (w : WalletState) : List InitRun → WalletState
  | [] => w
  | r :: rs =>
    runInits (walletInitialize r.privateKey r.decodeResult r.connectionResult w).2 rs

end JupiterMcp

namespace JupiterMcp

/-! ## Claims -/

/-- One initialize step never creates a connection without a keypair:
the connection is assigned only after the keypair assignment succeeded. -/
theorem walletInitialize_conn_imp_keypair (pk : String) (d : Option Keypair)
    (c : Option Unit) (w : WalletState)
    (h : w.connection.isSome = true → w.keypair.isSome = true) :
    (walletInitialize pk d c w).2.connection.isSome = true →
      (walletInitialize pk d c w).2.keypair.isSome = true := by
  unfold walletInitialize
  split
  · exact h
  · cases d with
    | none => exact h
    | some kp => cases c <;> simp

/-- The no-connection-without-keypair invariant holds after any sequence
of initialize invocations. -/
theorem runInits_conn_imp_keypair (rs : List InitRun) (w : WalletState)
    (h : w.connection.isSome = true → w.keypair.isSome = true) :
    (runInits w rs).connection.isSome = true →
      (runInits w rs).keypair.isSome = true := by
  induction rs generalizing w with
  | nil => exact h
  | cons r rs ih =>
    exact ih _ (walletInitialize_conn_imp_keypair r.privateKey r.decodeResult
      r.connectionResult w h)

/-- An initialized wallet stores a keypair. -/
theorem WalletState.keypair_of_initialized (w : WalletState)
    (hw : w.isInitialized = true) : ∃ kp, w.keypair = some kp := by
  unfold WalletState.isInitialized at hw
  simp only [Bool.and_eq_true] at hw
  exact Option.isSome_iff_exists.mp hw.1

/-- C1 counterexample: on `JupiterService.completeSwap` the
simulation-error guard tests truthiness, not non-null — with a build
response carrying the non-null `simulationError` value `""` the pipeline
signs, submits and even reports success. -/
theorem C1_counterexample :
    emptySimOracle.swapResult =
      .ok { swapTransaction := "AAAA", simulationError := some "" }
    ∧ Step.sign ∈ (jupCompleteSwap initWallet emptySimOracle
        ⟨⟨validMintA, validMintB, "100", none, none⟩, none, none⟩).2
    ∧ Step.netSubmit true 2 ∈ (jupCompleteSwap initWallet emptySimOracle
        ⟨⟨validMintA, validMintB, "100", none, none⟩, none, none⟩).2
    ∧ ((jupCompleteSwap initWallet emptySimOracle
        ⟨⟨validMintA, validMintB, "100", none, none⟩, none, none⟩).1).isOk = true := by
  refine ⟨rfl, ?_, ?_, ?_⟩ <;> decide

/-- C1 (amended): whenever the build response carries a non-null
`simulationError`, `V1ApiClient.completeSwap` neither signs nor submits,
and — once the pipeline has actually reached the build step (wallet
initialized, quote obtained) — it fails with the `SimulationFailed`
error carrying that simulation error; `JupiterService.completeSwap`
guarantees the same only for a non-null, non-empty `simulationError`
(its guard tests truthiness). -/
theorem C1_theorem (wallet : WalletState) (o : PipelineOracle)
    (inputMint outputMint amount : String) (slippageBps : Option Int)
    (onlyDirectRoutes dynCU dynSlip : Option Bool) (p : SwapInput)
    (q : QuoteResponse) (a : Int) (ex : ExecuteResponse) (e : String)
    (hswap : o.swapResult = .ok ex) (hsim : ex.simulationError = some e) :
    noSignNoSubmit (v1CompleteSwap wallet o inputMint outputMint amount
        slippageBps onlyDirectRoutes dynCU dynSlip).2 = true
    ∧ (e ≠ "" → noSignNoSubmit (jupCompleteSwap wallet o p).2 = true)
    ∧ (wallet.isInitialized = true → o.quoteResult = .ok q →
        (v1CompleteSwap wallet o inputMint outputMint amount
          slippageBps onlyDirectRoutes dynCU dynSlip).1
          = .error (.simulationFailed e))
    ∧ (wallet.isInitialized = true → o.quoteResult = .ok q →
        parseIntJS p.amount = some a → e ≠ "" →
        (jupCompleteSwap wallet o p).1 = .error (.simulationFailed e)) := by
  refine ⟨?_, ?_, ?_, ?_⟩
  · unfold v1CompleteSwap v1GetQuote
    cases hw : wallet.isInitialized <;>
      simp [noSignNoSubmit, Step.isSignStep, Step.isSubmitStep]
    cases o.quoteResult <;>
      simp [noSignNoSubmit, Step.isSignStep, Step.isSubmitStep]
    cases wallet.keypair <;>
      simp [hswap, hsim, noSignNoSubmit, Step.isSignStep, Step.isSubmitStep]
  · intro he
    unfold jupCompleteSwap jupGetQuote
    cases hw : wallet.isInitialized <;>
      simp [noSignNoSubmit, Step.isSignStep, Step.isSubmitStep]
    cases parseIntJS p.amount <;>
      simp [noSignNoSubmit, Step.isSignStep, Step.isSubmitStep]
    cases o.quoteResult <;>
      simp [noSignNoSubmit, Step.isSignStep, Step.isSubmitStep]
    cases wallet.keypair <;>
      simp [hswap, hsim, jsTruthyStr, he, noSignNoSubmit, Step.isSignStep,
        Step.isSubmitStep]
  · intro hw hq
    obtain ⟨kp, hkp⟩ := wallet.keypair_of_initialized hw
    simp [v1CompleteSwap, v1GetQuote, hw, hq, hkp, hswap, hsim]
  · intro hw hq hamt he
    obtain ⟨kp, hkp⟩ := wallet.keypair_of_initialized hw
    simp [jupCompleteSwap, jupGetQuote, hw, hq, hkp, hswap, hsim, hamt,
      jsTruthyStr, he]

/-- C1 witness: a concrete run with a non-empty simulation error on both
pipelines — neither signs nor submits, and both fail with the
simulation-failed error. -/
theorem C1_witness :
    noSignNoSubmit (v1CompleteSwap initWallet
      { quoteResult := .ok sampleQuote
        swapResult := .ok { swapTransaction := "AAAA", simulationError := some "boom" }
        submitResult := .ok "sig123"
        confirmOutcome := .result none }
      validMintA validMintB "100" none none none none).2 = true
    ∧ noSignNoSubmit (jupCompleteSwap initWallet
      { quoteResult := .ok sampleQuote
        swapResult := .ok { swapTransaction := "AAAA", simulationError := some "boom" }
        submitResult := .ok "sig123"
        confirmOutcome := .result none }
      ⟨⟨validMintA, validMintB, "100", none, none⟩, none, none⟩).2 = true
    ∧ (v1CompleteSwap initWallet
      { quoteResult := .ok sampleQuote
        swapResult := .ok { swapTransaction := "AAAA", simulationError := some "boom" }
        submitResult := .ok "sig123"
        confirmOutcome := .result none }
      validMintA validMintB "100" none none none none).1
      = .error (.simulationFailed "boom")
    ∧ (jupCompleteSwap initWallet
      { quoteResult := .ok sampleQuote
        swapResult := .ok { swapTransaction := "AAAA", simulationError := some "boom" }
        submitResult := .ok "sig123"
        confirmOutcome := .result none }
      ⟨⟨validMintA, validMintB, "100", none, none⟩, none, none⟩).1
      = .error (.simulationFailed "boom") := by
  have h := C1_theorem initWallet
    { quoteResult := .ok sampleQuote
      swapResult := .ok { swapTransaction := "AAAA", simulationError := some "boom" }
      submitResult := .ok "sig123"
      confirmOutcome := .result none }
    validMintA validMintB "100" none none none none
    ⟨⟨validMintA, validMintB, "100", none, none⟩, none, none⟩
    sampleQuote 100
    { swapTransaction := "AAAA", simulationError := some "boom" } "boom"
    rfl rfl
  exact ⟨h.1, h.2.1 (by decide), h.2.2.1 (by decide) rfl,
    h.2.2.2 (by decide) rfl (by decide) (by decide)⟩

/-- C2: if the key custodian is uninitialized, `executeV1SwapHandler`,
`V1ApiClient.completeSwap` and `JupiterService.completeSwap` all return
the wallet-not-initialized error with an empty step trace (zero network
calls, the quote fetch included), while both quote operations, which
consult no wallet state, still succeed on well-formed inputs. -/
theorem C2_theorem (wallet : WalletState) (o o2 : PipelineOracle)
    (input : SwapInput) (inputMint outputMint amount : String)
    (slippageBps : Option Int) (onlyDirectRoutes dynCU dynSlip : Option Bool)
    (g : GetQuoteInput) (q : QuoteInput) (body : String) (a : Int) (qr : QuoteResponse)
    (hw : wallet.isInitialized = false) :
    executeV1SwapHandler wallet o input =
      (createErrorResponse
        "Wallet not initialized. Cannot execute swap. Please check your environment variables for SOLANA_PRIVATE_KEY.",
       [])
    ∧ v1CompleteSwap wallet o inputMint outputMint amount slippageBps
        onlyDirectRoutes dynCU dynSlip = (.error .walletNotInitialized, [])
    ∧ jupCompleteSwap wallet o input = (.error .walletNotInitialized, [])
    ∧ (validPublicKey g.inputMint = true → validPublicKey g.outputMint = true →
        (getQuoteHandler (.ok body) g).1.isError = false)
    ∧ (validPublicKey q.inputMint = true → validPublicKey q.outputMint = true →
        parseIntJS q.amount = some a → o2.quoteResult = .ok qr →
        (getV1QuoteHandler o2 q).1.isError = false) := by
  refine ⟨?_, ?_, ?_, ?_, ?_⟩
  · simp [executeV1SwapHandler, hw]
  · simp [v1CompleteSwap, hw]
  · simp [jupCompleteSwap, hw]
  · intro hin hout
    simp [getQuoteHandler, hin, hout, createSuccessResponse]
  · intro hin hout hamt hq
    simp [getV1QuoteHandler, v1GetQuote, hin, hout, hamt, hq, createSuccessResponse]

/-- C2 witness: the uninitialized wallet on concrete well-formed inputs. -/
theorem C2_witness :
    executeV1SwapHandler uninitWallet okOracle
      ⟨⟨validMintA, validMintB, "1000", none, none⟩, none, none⟩ =
      (createErrorResponse
        "Wallet not initialized. Cannot execute swap. Please check your environment variables for SOLANA_PRIVATE_KEY.",
       [])
    ∧ (getV1QuoteHandler okOracle ⟨validMintA, validMintB, "1000", none, none⟩).1.isError
        = false := by
  have h := C2_theorem uninitWallet okOracle okOracle
    ⟨⟨validMintA, validMintB, "1000", none, none⟩, none, none⟩
    validMintA validMintB "1000" none none none none
    ⟨validMintA, validMintB, "1000", none, none, none, none, none, none, none⟩
    ⟨validMintA, validMintB, "1000", none, none⟩
    "body" 1000 sampleQuote (by decide)
  exact ⟨h.1, h.2.2.2.2 (by decide) (by decide) (by decide) rfl⟩

/-- C3: when the confirmation step exceeds its timeout budget (the
confirm call throws instead of resolving), both pipelines surface the
propagated timeout error — a kind distinct from the transaction-failed
error — and the transaction-failed error arises exactly when the
confirmation resolves with a network-reported execution error. -/
theorem C3_theorem (wallet : WalletState) (o : PipelineOracle)
    (inputMint outputMint amount : String) (slippageBps : Option Int)
    (onlyDirectRoutes dynCU dynSlip : Option Bool) (p : SwapInput)
    (q : QuoteResponse) (ex : ExecuteResponse) (sig m : String) (a : Int)
    (hw : wallet.isInitialized = true)
    (hq : o.quoteResult = .ok q)
    (hx : o.swapResult = .ok ex)
    (hsim : ex.simulationError = none)
    (hsub : o.submitResult = .ok sig)
    (hamt : parseIntJS p.amount = some a) :
    (o.confirmOutcome = .timeout m →
      (v1CompleteSwap wallet o inputMint outputMint amount slippageBps
          onlyDirectRoutes dynCU dynSlip).1 = .error (.confirmationTimeout m)
      ∧ (jupCompleteSwap wallet o p).1 = .error (.confirmationTimeout m))
    ∧ (∀ e, (v1CompleteSwap wallet o inputMint outputMint amount slippageBps
          onlyDirectRoutes dynCU dynSlip).1 = .error (.transactionFailed e) →
        o.confirmOutcome = .result (some e))
    ∧ (∀ e, (jupCompleteSwap wallet o p).1 = .error (.transactionFailed e) →
        o.confirmOutcome = .result (some e))
    ∧ (∀ m2 e, SwapError.confirmationTimeout m2 ≠ SwapError.transactionFailed e) := by
  obtain ⟨kp, hkp⟩ : ∃ kp, wallet.keypair = some kp := by
    have h2 := hw
    unfold WalletState.isInitialized at h2
    simp only [Bool.and_eq_true] at h2
    exact Option.isSome_iff_exists.mp h2.1
  refine ⟨?_, ?_, ?_, ?_⟩
  · intro hconf
    constructor
    · simp [v1CompleteSwap, v1GetQuote, hw, hq, hx, hsim, hsub, hconf, hkp]
    · simp [jupCompleteSwap, jupGetQuote, hw, hq, hx, hsim, hsub, hconf, hkp,
        hamt, jsTruthyStr]
  · intro e h
    cases hco : o.confirmOutcome with
    | timeout m2 =>
      simp [v1CompleteSwap, v1GetQuote, hw, hq, hx, hsim, hsub, hco, hkp] at h
    | result err =>
      cases err with
      | none =>
        simp [v1CompleteSwap, v1GetQuote, hw, hq, hx, hsim, hsub, hco, hkp] at h
      | some x =>
        simp only [v1CompleteSwap, v1GetQuote, hw, hq, hx, hsim, hsub, hco, hkp] at h
        simp at h
        simp [h]
  · intro e h
    cases hco : o.confirmOutcome with
    | timeout m2 =>
      simp [jupCompleteSwap, jupGetQuote, hw, hq, hx, hsim, hsub, hco, hkp,
        hamt, jsTruthyStr] at h
    | result err =>
      cases err with
      | none =>
        simp [jupCompleteSwap, jupGetQuote, hw, hq, hx, hsim, hsub, hco, hkp,
          hamt, jsTruthyStr] at h
      | some x =>
        simp only [jupCompleteSwap, jupGetQuote, hw, hq, hx, hsim, hsub, hco, hkp,
          hamt, jsTruthyStr] at h
        simp [jsTruthyStr, hsim] at h
        simp [h]
  · intro m2 e h
    exact SwapError.noConfusion h

/-- C3 witness: a concrete run whose confirmation call times out yields
the propagated timeout error on both pipelines. -/
theorem C3_witness :
    (v1CompleteSwap initWallet
      { quoteResult := .ok sampleQuote
        swapResult := .ok okExec
        submitResult := .ok "sig123"
        confirmOutcome := .timeout "Transaction was not confirmed in 30.00 seconds" }
      validMintA validMintB "100" none none none none).1
      = .error (.confirmationTimeout "Transaction was not confirmed in 30.00 seconds")
    ∧ (jupCompleteSwap initWallet
      { quoteResult := .ok sampleQuote
        swapResult := .ok okExec
        submitResult := .ok "sig123"
        confirmOutcome := .timeout "Transaction was not confirmed in 30.00 seconds" }
      ⟨⟨validMintA, validMintB, "100", none, none⟩, none, none⟩).1
      = .error (.confirmationTimeout "Transaction was not confirmed in 30.00 seconds") := by
  have h := C3_theorem initWallet
    { quoteResult := .ok sampleQuote
      swapResult := .ok okExec
      submitResult := .ok "sig123"
      confirmOutcome := .timeout "Transaction was not confirmed in 30.00 seconds" }
    validMintA validMintB "100" none none none none
    ⟨⟨validMintA, validMintB, "100", none, none⟩, none, none⟩
    sampleQuote okExec "sig123" "Transaction was not confirmed in 30.00 seconds" 100
    (by decide) rfl rfl rfl rfl (by decide)
  exact h.1 rfl

/-- C4 counterexample: the v6 `getQuoteHandler` performs no amount
validation at all — the non-integer amount `abc` is sent to the network
verbatim and the handler succeeds; and `executeV1SwapHandler` accepts
the non-integer numeral `12.5` because `parseInt` truncates it to 12,
running the whole pipeline instead of returning the invalid-amount
error. -/
theorem C4_counterexample :
    (getQuoteHandler (.ok "response")
        { inputMint := validMintA, outputMint := validMintB, amount := "abc" }).2
      = [Step.netQuote [("inputMint", validMintA), ("outputMint", validMintB),
          ("amount", "abc")]]
    ∧ (getQuoteHandler (.ok "response")
        { inputMint := validMintA, outputMint := validMintB, amount := "abc" }).1.isError
      = false
    ∧ parseIntJS "12.5" = some 12
    ∧ (executeV1SwapHandler initWallet okOracle
        ⟨⟨validMintA, validMintB, "12.5", none, none⟩, none, none⟩).1.isError = false
    ∧ (executeV1SwapHandler initWallet okOracle
        ⟨⟨validMintA, validMintB, "12.5", none, none⟩, none, none⟩).2 ≠ [] := by
  refine ⟨?_, ?_, ?_, ?_, ?_⟩ <;> decide

/-- C4 (amended): the operations that do validate the amount —
`getV1QuoteHandler`, `executeV1SwapHandler` and
`JupiterService.completeSwap` — return the invalid-amount error before
any network call exactly on the amount strings where `parseInt` yields
`NaN` (no parseable leading integer); the v6 `getQuoteHandler` performs
no amount validation. -/
theorem C4_theorem (wallet : WalletState) (o : PipelineOracle) (input : SwapInput)
    (hamt : parseIntJS input.amount = none)
    (hin : validPublicKey input.inputMint = true)
    (hout : validPublicKey input.outputMint = true)
    (hw : wallet.isInitialized = true) :
    getV1QuoteHandler o input.toQuoteInput
      = (createErrorResponse "Invalid amount. Please provide a valid number.", [])
    ∧ executeV1SwapHandler wallet o input
      = (createErrorResponse "Invalid amount. Please provide a valid number.", [])
    ∧ jupCompleteSwap wallet o input = (.error .invalidAmount, []) := by
  refine ⟨?_, ?_, ?_⟩
  · simp [getV1QuoteHandler, hin, hout, hamt]
  · simp [executeV1SwapHandler, hw, hin, hout, hamt]
  · simp [jupCompleteSwap, hw, hamt]

/-- C4 witness: the amount `abc` has no parseable leading integer and is
rejected with no network call. -/
theorem C4_witness :
    getV1QuoteHandler okOracle ⟨validMintA, validMintB, "abc", none, none⟩
      = (createErrorResponse "Invalid amount. Please provide a valid number.", [])
    ∧ jupCompleteSwap initWallet okOracle
        ⟨⟨validMintA, validMintB, "abc", none, none⟩, none, none⟩
      = (.error .invalidAmount, []) := by
  have h := C4_theorem initWallet okOracle
    ⟨⟨validMintA, validMintB, "abc", none, none⟩, none, none⟩
    (by decide) (by decide) (by decide) (by decide)
  exact ⟨h.1, h.2.2⟩

/-- C5 counterexample: `executeV1SwapHandler` checks the wallet before
validating addresses, so with an uninitialized wallet and the malformed
mint `invalid-mint` it returns the wallet error, not the
invalid-public-key error, refuting the claim for `executeSwap`. -/
theorem C5_counterexample :
    validPublicKey "invalid-mint" = false
    ∧ executeV1SwapHandler uninitWallet okOracle
        ⟨⟨"invalid-mint", validMintA, "100", none, none⟩, none, none⟩
      = (createErrorResponse
          "Wallet not initialized. Cannot execute swap. Please check your environment variables for SOLANA_PRIVATE_KEY.",
         [])
    ∧ ("Wallet not initialized. Cannot execute swap. Please check your environment variables for SOLANA_PRIVATE_KEY."
        ≠ "Invalid public key: invalid-mint") := by
  refine ⟨?_, ?_, ?_⟩ <;> decide

/-- C5 (amended): for every malformed input or output mint, the quote
handlers always — and `executeV1SwapHandler` whenever the wallet is
initialized (its wallet guard runs first) — return the
invalid-public-key error naming the offending mint, with zero network
calls; with an uninitialized wallet `executeV1SwapHandler` instead
fails with the wallet error, still making no network call (see the
counterexample). -/
theorem C5_theorem (wallet : WalletState) (o : PipelineOracle)
    (fetchResult : Except String String) (input : SwapInput)
    (hbad : validPublicKey input.inputMint = false
      ∨ validPublicKey input.outputMint = false) :
    ∃ m, (m = input.inputMint ∨ m = input.outputMint) ∧ validPublicKey m = false
      ∧ getQuoteHandler fetchResult
          { inputMint := input.inputMint, outputMint := input.outputMint,
            amount := input.amount }
        = (createErrorResponse ("Invalid public key: " ++ m), [])
      ∧ getV1QuoteHandler o input.toQuoteInput
        = (createErrorResponse ("Invalid public key: " ++ m), [])
      ∧ (wallet.isInitialized = true →
          executeV1SwapHandler wallet o input
            = (createErrorResponse ("Invalid public key: " ++ m), [])) := by
  cases hin : validPublicKey input.inputMint with
  | false =>
    refine ⟨input.inputMint, Or.inl rfl, hin, ?_, ?_, ?_⟩
    · simp [getQuoteHandler, hin]
    · simp [getV1QuoteHandler, hin]
    · intro hw
      simp [executeV1SwapHandler, hw, hin]
  | true =>
    have hout : validPublicKey input.outputMint = false := by
      rcases hbad with h | h
      · rw [hin] at h
        exact absurd h (by simp)
      · exact h
    refine ⟨input.outputMint, Or.inr rfl, hout, ?_, ?_, ?_⟩
    · simp [getQuoteHandler, hin, hout]
    · simp [getV1QuoteHandler, hin, hout]
    · intro hw
      simp [executeV1SwapHandler, hw, hin, hout]

/-- C5 witness: the malformed mint `invalid-mint` on concrete inputs. -/
theorem C5_witness :
    ∃ m, (m = "invalid-mint" ∨ m = validMintA) ∧ validPublicKey m = false
      ∧ getQuoteHandler (Except.ok "response")
          { inputMint := "invalid-mint", outputMint := validMintA, amount := "100" }
        = (createErrorResponse ("Invalid public key: " ++ m), [])
      ∧ getV1QuoteHandler okOracle ⟨"invalid-mint", validMintA, "100", none, none⟩
        = (createErrorResponse ("Invalid public key: " ++ m), [])
      ∧ (initWallet.isInitialized = true →
          executeV1SwapHandler initWallet okOracle
            ⟨⟨"invalid-mint", validMintA, "100", none, none⟩, none, none⟩
            = (createErrorResponse ("Invalid public key: " ++ m), [])) :=
  C5_theorem initWallet okOracle (Except.ok "response")
    ⟨⟨"invalid-mint", validMintA, "100", none, none⟩, none, none⟩
    (Or.inl (by decide))

/-- Rendering of the default slippage number. -/
theorem toString_int_fifty : toString (50 : Int) = "50" := by decide

/-- With an initialized wallet, `V1ApiClient.completeSwap` performs
exactly one quote request, with the parameters built by
`v1QuoteParams`, whatever the oracle answers. -/
theorem v1CompleteSwap_quoteCalls (wallet : WalletState) (o : PipelineOracle)
    (inputMint outputMint amount : String) (slippageBps : Option Int)
    (onlyDirectRoutes dynCU dynSlip : Option Bool)
    (hw : wallet.isInitialized = true) :
    quoteCalls (v1CompleteSwap wallet o inputMint outputMint amount slippageBps
        onlyDirectRoutes dynCU dynSlip).2
      = [v1QuoteParams inputMint outputMint amount (slippageBps.getD 50)
          (some (!(onlyDirectRoutes.getD false)))] := by
  obtain ⟨kp, hkp⟩ := wallet.keypair_of_initialized hw
  unfold v1CompleteSwap v1GetQuote
  simp only [hw, hkp, Bool.not_true, Bool.false_eq_true, if_false]
  repeat' split
  all_goals simp [quoteCalls]

/-- With an initialized wallet and a parseable amount,
`JupiterService.completeSwap` performs exactly one quote request, with
the parameters built by `jupQuoteParams` and the `||`-defaulted
slippage, whatever the oracle answers. -/
theorem jupCompleteSwap_quoteCalls (wallet : WalletState) (o : PipelineOracle)
    (p : SwapInput) (a : Int)
    (hw : wallet.isInitialized = true) (hamt : parseIntJS p.amount = some a) :
    quoteCalls (jupCompleteSwap wallet o p).2
      = [jupQuoteParams p.inputMint p.outputMint (toString a)
          (some (jsOrInt p.slippageBps 50)) p.onlyDirectRoutes] := by
  obtain ⟨kp, hkp⟩ := wallet.keypair_of_initialized hw
  unfold jupCompleteSwap jupGetQuote
  simp only [hw, hkp, hamt, Bool.not_true, Bool.false_eq_true, if_false]
  repeat' split
  all_goals simp [quoteCalls]

/-- With valid mints and a parseable amount, `getV1QuoteHandler`
performs exactly one quote request. -/
theorem getV1QuoteHandler_quoteCalls (o : PipelineOracle) (q : QuoteInput) (a : Int)
    (hin : validPublicKey q.inputMint = true)
    (hout : validPublicKey q.outputMint = true)
    (hamt : parseIntJS q.amount = some a) :
    quoteCalls (getV1QuoteHandler o q).2
      = [v1QuoteParams q.inputMint q.outputMint (toString a)
          (jsOrInt q.slippageBps 50) (some (!(q.onlyDirectRoutes == some true)))] := by
  unfold getV1QuoteHandler v1GetQuote
  simp only [hin, hout, hamt, Bool.not_true, Bool.false_eq_true, if_false]
  cases hqr : o.quoteResult <;> simp [hqr, quoteCalls]

/-- With an initialized wallet, valid mints and a parseable amount,
`executeV1SwapHandler` performs exactly one quote request, through
`v1CompleteSwap`. -/
theorem executeV1SwapHandler_quoteCalls (wallet : WalletState) (o : PipelineOracle)
    (input : SwapInput) (a : Int)
    (hw : wallet.isInitialized = true)
    (hin : validPublicKey input.inputMint = true)
    (hout : validPublicKey input.outputMint = true)
    (hamt : parseIntJS input.amount = some a) :
    quoteCalls (executeV1SwapHandler wallet o input).2
      = [v1QuoteParams input.inputMint input.outputMint (toString a)
          (jsOrInt input.slippageBps 50)
          (some (!(input.onlyDirectRoutes.getD false)))] := by
  have hcalls := v1CompleteSwap_quoteCalls wallet o input.inputMint input.outputMint
    (toString a) (some (jsOrInt input.slippageBps 50)) input.onlyDirectRoutes
    input.dynamicComputeUnits input.dynamicSlippage hw
  unfold executeV1SwapHandler
  simp only [hw, hin, hout, hamt, Bool.not_true, Bool.false_eq_true, if_false]
  cases hres : (v1CompleteSwap wallet o input.inputMint input.outputMint
      (toString a) (some (jsOrInt input.slippageBps 50)) input.onlyDirectRoutes
      input.dynamicComputeUnits input.dynamicSlippage).1 <;>
    simp only [hres] <;>
    simpa [hres] using hcalls

/-- C6 counterexample: the v6 `getQuoteHandler` substitutes no default —
with `slippageBps` unspecified the outbound quote request carries no
`slippageBps` parameter at all (the remote service, not the client,
decides the tolerance). -/
theorem C6_counterexample :
    (getQuoteHandler (.ok "response")
        { inputMint := validMintA, outputMint := validMintB, amount := "1000" }).2
      = [Step.netQuote (getQuoteHandlerParams
          { inputMint := validMintA, outputMint := validMintB, amount := "1000" })]
    ∧ ((getQuoteHandlerParams
        { inputMint := validMintA, outputMint := validMintB, amount := "1000" }).all
          fun kv => !(kv.1 == "slippageBps")) = true := by
  refine ⟨?_, ?_⟩ <;> decide

/-- C6 (amended): when `slippageBps` is unspecified,
`JupiterService.getQuote` and `getV1QuoteHandler` send
`slippageBps=50`; the v6 `getQuoteHandler` instead omits the parameter
entirely (see the counterexample). -/
theorem C6_theorem (o : PipelineOracle) (p q : QuoteInput) (a : Int)
    (hp : p.slippageBps = none) (hq : q.slippageBps = none)
    (hin : validPublicKey q.inputMint = true)
    (hout : validPublicKey q.outputMint = true)
    (hamt : parseIntJS q.amount = some a) :
    ((jupGetQuote o p).2
        = [.netQuote (jupQuoteParams p.inputMint p.outputMint p.amount none
            p.onlyDirectRoutes)]
      ∧ ("slippageBps", "50") ∈ jupQuoteParams p.inputMint p.outputMint p.amount none
          p.onlyDirectRoutes)
    ∧ (∀ ps ∈ quoteCalls (getV1QuoteHandler o q).2, ("slippageBps", "50") ∈ ps)
    ∧ quoteCalls (getV1QuoteHandler o q).2 ≠ [] := by
  refine ⟨⟨?_, ?_⟩, ?_, ?_⟩
  · simp [jupGetQuote, hp]
  · simp [jupQuoteParams]
  · intro ps hps
    simp only [getV1QuoteHandler, hin, hout, hamt, hq, v1GetQuote, jsOrInt] at hps
    cases hqr : o.quoteResult <;>
      simp_all [quoteCalls, v1QuoteParams, toString_int_fifty]
  · simp only [getV1QuoteHandler, hin, hout, hamt, hq, v1GetQuote, jsOrInt]
    cases hqr : o.quoteResult <;> simp [hqr, quoteCalls]

/-- C6 witness: concrete quote requests with `slippageBps` unspecified. -/
theorem C6_witness :
    (("slippageBps", "50") ∈ jupQuoteParams validMintA validMintB "1000" none none)
    ∧ (∀ ps ∈ quoteCalls (getV1QuoteHandler okOracle
        ⟨validMintA, validMintB, "1000", none, none⟩).2, ("slippageBps", "50") ∈ ps) := by
  have h := C6_theorem okOracle ⟨validMintA, validMintB, "1000", none, none⟩
    ⟨validMintA, validMintB, "1000", none, none⟩ 1000 rfl rfl
    (by decide) (by decide) (by decide)
  exact ⟨h.1.2, h.2.1⟩

/-- C7 counterexample: on the V1 path a caller requesting direct routes
gets an outbound request that merely lifts the intermediate-token
restriction (`restrictIntermediateTokens=false`) — no `onlyDirectRoutes`
parameter is sent, so a direct route is not actually requested. -/
theorem C7_counterexample :
    quoteCalls (getV1QuoteHandler okOracle
        ⟨validMintA, validMintB, "1000", none, some true⟩).2
      = [[("inputMint", validMintA), ("outputMint", validMintB), ("amount", "1000"),
          ("slippageBps", "50"), ("restrictIntermediateTokens", "false")]]
    ∧ ((quoteCalls (getV1QuoteHandler okOracle
          ⟨validMintA, validMintB, "1000", none, some true⟩).2).all
        fun ps => ps.all fun kv => !(kv.1 == "onlyDirectRoutes")) = true := by
  refine ⟨?_, ?_⟩ <;> decide

/-- C7 (amended): when the caller does not set `onlyDirectRoutes` to
true, every quote request of `JupiterService.getQuote`,
`getV1QuoteHandler` and `executeV1SwapHandler` carries
`restrictIntermediateTokens=true`; when `onlyDirectRoutes` is true,
`JupiterService.getQuote` requests `onlyDirectRoutes=true` (and no
restriction parameter), while the V1 path instead sends
`restrictIntermediateTokens=false` without requesting a direct route. -/
theorem C7_theorem (o : PipelineOracle) (wallet : WalletState)
    (p q : QuoteInput) (input : SwapInput) (a b : Int)
    (hin : validPublicKey q.inputMint = true)
    (hout : validPublicKey q.outputMint = true)
    (hamt : parseIntJS q.amount = some a)
    (hw : wallet.isInitialized = true)
    (hin2 : validPublicKey input.inputMint = true)
    (hout2 : validPublicKey input.outputMint = true)
    (hamt2 : parseIntJS input.amount = some b) :
    (p.onlyDirectRoutes ≠ some true →
      ("restrictIntermediateTokens", "true")
          ∈ jupQuoteParams p.inputMint p.outputMint p.amount p.slippageBps
              p.onlyDirectRoutes
        ∧ ∀ kv ∈ jupQuoteParams p.inputMint p.outputMint p.amount p.slippageBps
              p.onlyDirectRoutes, kv.1 ≠ "onlyDirectRoutes")
    ∧ (q.onlyDirectRoutes ≠ some true →
        ∀ ps ∈ quoteCalls (getV1QuoteHandler o q).2,
          ("restrictIntermediateTokens", "true") ∈ ps)
    ∧ (input.onlyDirectRoutes ≠ some true →
        ∀ ps ∈ quoteCalls (executeV1SwapHandler wallet o input).2,
          ("restrictIntermediateTokens", "true") ∈ ps)
    ∧ (p.onlyDirectRoutes = some true →
        ("onlyDirectRoutes", "true")
            ∈ jupQuoteParams p.inputMint p.outputMint p.amount p.slippageBps
                p.onlyDirectRoutes
          ∧ ∀ kv ∈ jupQuoteParams p.inputMint p.outputMint p.amount p.slippageBps
                p.onlyDirectRoutes, kv.1 ≠ "restrictIntermediateTokens")
    ∧ (q.onlyDirectRoutes = some true →
        ∀ ps ∈ quoteCalls (getV1QuoteHandler o q).2,
          ("restrictIntermediateTokens", "false") ∈ ps
          ∧ ∀ kv ∈ ps, kv.1 ≠ "onlyDirectRoutes") := by
  refine ⟨?_, ?_, ?_, ?_, ?_⟩
  · intro hp
    constructor
    · simp [jupQuoteParams, hp]
    · intro kv hkv
      cases hs : p.slippageBps <;>
        simp [jupQuoteParams, hp, hs] at hkv <;>
        rcases hkv with rfl | rfl | rfl | rfl | rfl <;> simp
  · intro hq ps hps
    rw [getV1QuoteHandler_quoteCalls o q a hin hout hamt] at hps
    simp only [List.mem_singleton] at hps
    subst hps
    have hr : (!(q.onlyDirectRoutes == some true)) = true := by
      cases hqd : q.onlyDirectRoutes with
      | none => rfl
      | some b => cases b <;> simp_all
    simp [v1QuoteParams, hr]
  · intro hi ps hps
    rw [executeV1SwapHandler_quoteCalls wallet o input b hw hin2 hout2 hamt2] at hps
    simp only [List.mem_singleton] at hps
    subst hps
    have hr : input.onlyDirectRoutes.getD false = false := by
      cases hid : input.onlyDirectRoutes with
      | none => rfl
      | some b => cases b <;> simp_all
    simp [v1QuoteParams, hr]
  · intro hp
    constructor
    · simp [jupQuoteParams, hp]
    · intro kv hkv
      cases hs : p.slippageBps <;>
        simp [jupQuoteParams, hp, hs] at hkv <;>
        rcases hkv with rfl | rfl | rfl | rfl | rfl <;> simp
  · intro hq ps hps
    rw [getV1QuoteHandler_quoteCalls o q a hin hout hamt] at hps
    simp only [List.mem_singleton] at hps
    subst hps
    have hr : (!(q.onlyDirectRoutes == some true)) = false := by simp [hq]
    refine ⟨by simp [v1QuoteParams, hr], ?_⟩
    intro kv hkv
    simp [v1QuoteParams, hr] at hkv
    rcases hkv with rfl | rfl | rfl | rfl | rfl <;> simp

/-- C7 witness: a default-routing request and a direct-routes request on
concrete inputs. -/
theorem C7_witness :
    (("restrictIntermediateTokens", "true")
        ∈ jupQuoteParams validMintA validMintB "1000" none none
      ∧ ∀ kv ∈ jupQuoteParams validMintA validMintB "1000" none none,
          kv.1 ≠ "onlyDirectRoutes")
    ∧ ∀ ps ∈ quoteCalls (getV1QuoteHandler okOracle
          ⟨validMintA, validMintB, "1000", none, some true⟩).2,
        ("restrictIntermediateTokens", "false") ∈ ps
        ∧ ∀ kv ∈ ps, kv.1 ≠ "onlyDirectRoutes" := by
  have h := C7_theorem okOracle initWallet
    ⟨validMintA, validMintB, "1000", none, none⟩
    ⟨validMintA, validMintB, "1000", none, some true⟩
    ⟨⟨validMintA, validMintB, "1000", none, none⟩, none, none⟩
    1000 1000 (by decide) (by decide) (by decide) (by decide)
    (by decide) (by decide) (by decide)
  exact ⟨h.1 (by decide), h.2.2.2.2 rfl⟩

/-- C9 counterexample: when connection construction fails after the key
decode succeeded (for example a syntactically invalid RPC endpoint URL),
`initialize` leaves the keypair assigned and the connection absent — a
partial state in which `isInitialized` reports false yet `sign` still
succeeds, so the partial state is observable through the public
interface. -/
theorem C9_counterexample :
    ((walletInitialize "key" (some ⟨[7], "pk"⟩) none uninitWallet).2.keypair.isSome
      = true)
    ∧ ((walletInitialize "key" (some ⟨[7], "pk"⟩) none uninitWallet).2.connection.isSome
      = false)
    ∧ ((walletInitialize "key" (some ⟨[7], "pk"⟩) none uninitWallet).2.isInitialized
      = false)
    ∧ (signTransaction (fun _ _ => [0])
        (walletInitialize "key" (some ⟨[7], "pk"⟩) none uninitWallet).2 [1]).1
      = .ok [0, 1] := by
  exact ⟨by decide, by decide, by decide, rfl⟩

/-- C9 (amended): after any sequence of initialize invocations from the
uninitialized state, a connection handle is never present without a
keypair, and an invocation that returns true leaves the custodian fully
initialized; the remaining partial state — keypair present, connection
absent, reached when connection construction fails after key decoding —
reports `isInitialized = false` but still signs (see the
counterexample). -/
theorem C9_theorem (rs : List InitRun) :
    ((runInits uninitWallet rs).connection.isSome = true →
      (runInits uninitWallet rs).keypair.isSome = true)
    ∧ (∀ (pk : String) (d : Option Keypair) (c : Option Unit) (w : WalletState),
        (walletInitialize pk d c w).1 = true →
          (walletInitialize pk d c w).2.isInitialized = true) := by
  constructor
  · exact runInits_conn_imp_keypair rs uninitWallet (by simp [uninitWallet])
  · intro pk d c w h
    by_cases hpk : pk = ""
    · simp [walletInitialize, hpk] at h
    · cases d with
      | none => simp [walletInitialize, hpk] at h
      | some kp =>
        cases c with
        | none => simp [walletInitialize, hpk] at h
        | some u => simp [walletInitialize, hpk, WalletState.isInitialized]

/-- C9 witness: a fully successful initialize run. -/
theorem C9_witness :
    (runInits uninitWallet [⟨"key", some ⟨[7], "pk"⟩, some ()⟩]).keypair.isSome = true
    ∧ (walletInitialize "key" (some ⟨[7], "pk"⟩) (some ()) uninitWallet).2.isInitialized
      = true := by
  have h := C9_theorem [⟨"key", some ⟨[7], "pk"⟩, some ()⟩]
  exact ⟨h.1 (by decide), h.2 "key" (some ⟨[7], "pk"⟩) (some ()) uninitWallet (by decide)⟩

/-- C10: in `getV1QuoteHandler`, `executeV1SwapHandler` and
`JupiterService.completeSwap` the slippage sent with the quote request
is `input.slippageBps || 50`, which is never zero — an explicit 0 is
falsy and is replaced by the 50-basis-point default, so a zero slippage
tolerance can never be requested through these operations. -/
theorem C10_theorem (wallet : WalletState) (o : PipelineOracle)
    (input : SwapInput) (a : Int)
    (hin : validPublicKey input.inputMint = true)
    (hout : validPublicKey input.outputMint = true)
    (hamt : parseIntJS input.amount = some a)
    (hw : wallet.isInitialized = true) :
    jsOrInt input.slippageBps 50 ≠ 0
    ∧ (input.slippageBps = some 0 → jsOrInt input.slippageBps 50 = 50)
    ∧ (∀ ps ∈ quoteCalls (getV1QuoteHandler o input.toQuoteInput).2,
        ("slippageBps", toString (jsOrInt input.slippageBps 50)) ∈ ps)
    ∧ (∀ ps ∈ quoteCalls (executeV1SwapHandler wallet o input).2,
        ("slippageBps", toString (jsOrInt input.slippageBps 50)) ∈ ps)
    ∧ (∀ ps ∈ quoteCalls (jupCompleteSwap wallet o input).2,
        ("slippageBps", toString (jsOrInt input.slippageBps 50)) ∈ ps) := by
  refine ⟨?_, ?_, ?_, ?_, ?_⟩
  · cases hs : input.slippageBps with
    | none => simp [jsOrInt]
    | some n =>
      by_cases hn : n = 0 <;> simp [jsOrInt, hn]
  · intro hs
    simp [jsOrInt, hs]
  · intro ps hps
    rw [getV1QuoteHandler_quoteCalls o input.toQuoteInput a hin hout hamt] at hps
    simp only [List.mem_singleton] at hps
    subst hps
    simp [v1QuoteParams]
  · intro ps hps
    rw [executeV1SwapHandler_quoteCalls wallet o input a hw hin hout hamt] at hps
    simp only [List.mem_singleton] at hps
    subst hps
    simp [v1QuoteParams]
  · intro ps hps
    rw [jupCompleteSwap_quoteCalls wallet o input a hw hamt] at hps
    simp only [List.mem_singleton] at hps
    subst hps
    simp [jupQuoteParams]

/-- C10 witness: an explicit zero slippage on concrete inputs is sent as
50 basis points. -/
theorem C10_witness :
    jsOrInt (some 0) 50 ≠ 0
    ∧ ∀ ps ∈ quoteCalls (jupCompleteSwap initWallet okOracle
          ⟨⟨validMintA, validMintB, "1000", some 0, none⟩, none, none⟩).2,
        ("slippageBps", toString (jsOrInt (some 0) 50)) ∈ ps := by
  have h := C10_theorem initWallet okOracle
    ⟨⟨validMintA, validMintB, "1000", some 0, none⟩, none, none⟩ 1000
    (by decide) (by decide) (by decide) (by decide)
  exact ⟨h.1, h.2.2.2.2⟩

/-- C8: signing is deterministic and purely local — the output of
`WalletService.signTransaction` depends only on the stored keypair and
the transaction bytes (two runs whose wallet states agree on the keypair
produce byte-identical serialized output, whatever else differs), and
its trace contains no network call. -/
theorem C8_theorem (ed25519Sign : List Nat → List Nat → List Nat)
    (w1 w2 : WalletState) (txMessage : List Nat)
    (h : w1.keypair = w2.keypair) :
    signTransaction ed25519Sign w1 txMessage = signTransaction ed25519Sign w2 txMessage
    ∧ ∀ s ∈ (signTransaction ed25519Sign w1 txMessage).2, s.isNetworkCall = false := by
  unfold signTransaction
  rw [h]
  cases w2.keypair <;> simp [Step.isNetworkCall]

/-- C8 witness: two concrete states sharing a keypair but differing in
the connection field sign identical bytes. -/
theorem C8_witness :
    signTransaction (fun k m => k ++ m) initWallet [7, 7]
      = signTransaction (fun k m => k ++ m)
          { keypair := some ⟨[1, 2, 3], "walletPub"⟩, connection := none } [7, 7]
    ∧ ∀ s ∈ (signTransaction (fun k m => k ++ m) initWallet [7, 7]).2,
        s.isNetworkCall = false :=
  C8_theorem (fun k m => k ++ m) initWallet
    { keypair := some ⟨[1, 2, 3], "walletPub"⟩, connection := none } [7, 7] (by decide)

end JupiterMcp
